import Mathlib

/-!
# Verification of the `v-permission` directive core

A shallow embedding of the permission-requirement validator and evaluator of
the `vue-permission-directive` package (file `src/` of the repository,
directive `vPermission`), together with theorems settling the specified
properties.

The embedding models:

* the JavaScript values a directive binding can carry (`JSValue`),
  with JS truthiness and the `typeof`-driven dispatch the source performs;
* `validatePermissionFormat`, `checkPermission`, `checkStartsWith`,
  `checkEndsWith`, `checkExactMatch`, `checkRegexMatch` and
  `evaluatePermission` from the directive's `mounted` hook;
* the `mounted` hook itself: the unconfigured-permissions early return, the
  wildcard early return, validation, evaluation, and element removal.

Exceptions (a JS `TypeError` from a property access on `null`) are modelled
by the `thrown` constructor of `JSResult`; development-mode `console.warn`
diagnostics are collected as a list of message strings.
-/

namespace VPerm

/-- A JavaScript value as far as the directive inspects one.

* `null` / `undef` — the two JS nullish values (they differ under `typeof`:
  `typeof null` is `"object"` while `typeof undefined` is `"undefined"`,
  which matters for array-item checks, so both are kept).
* `str s` — a string.
* `arr items` — an array.
* `obj p m` — a non-array object, tracked by the only two properties the
  source ever reads: `permissions` and `mode`; `none` means the property is
  absent (reads as `undefined`).
* `other truthy render` — any other primitive (number, boolean, …), tracked
  by its JS truthiness and its template-literal string rendering. -/
inductive JSValue : Type where
  | null : JSValue
  | undef : JSValue
  | str : String → JSValue
  | arr : List JSValue → JSValue
  | obj : Option JSValue → Option JSValue → JSValue
  | other : Bool → String → JSValue

/-- Reading an object property that may be absent: an absent property reads
as `undefined`. -/
def field (o : Option JSValue) : JSValue :=
  o.getD JSValue.undef

/-- JS truthiness of a value: `null`, `undefined` and `""` are falsy; arrays
and objects (even empty ones) are truthy; other primitives carry their own
truthiness (`0`, `false`, `NaN` would be falsy). -/
def truthy : JSValue → Bool
  | JSValue.null => false
  | JSValue.undef => false
  | JSValue.str s => s != ""
  | JSValue.arr _ => true
  | JSValue.obj _ _ => true
  | JSValue.other b _ => b

/-- `typeof v === "string"`. -/
def isString : JSValue → Bool
  | JSValue.str _ => true
  | _ => false

/-- Extract the string of a string value. -/
def asString : JSValue → Option String
  | JSValue.str s => some s
  | _ => none

/-- Result of running a piece of the directive: a value together with the
development-mode diagnostics emitted (in order), or a thrown JS exception
(with the diagnostics emitted before the throw). -/
inductive JSResult (α : Type) : Type where
  | ok : α → List String → JSResult α
  | thrown : String → List String → JSResult α
deriving Repr, DecidableEq

/-- Diagnostics carried by a result. -/
def JSResult.getDiags : JSResult α → List String
  | JSResult.ok _ d => d
  | JSResult.thrown _ d => d

/-- The exception message, when the computation threw. -/
def JSResult.thrownMsg : JSResult α → Option String
  | JSResult.ok _ _ => none
  | JSResult.thrown m _ => some m

/-- The boolean of a successful result (`false` when thrown; unused then). -/
def JSResult.getBool : JSResult Bool → Bool
  | JSResult.ok b _ => b
  | JSResult.thrown _ _ => false

/-- The message of the `TypeError` raised by reading `.permissions` off
`null` (engine wording abbreviated; only its identity matters here). -/
def nullAccessMsg : String :=
  "TypeError: Cannot read properties of null (reading permissions)"

/-- JS template-literal rendering of a value, as used inside the devWarn
messages. Array elements join with "," and nullish elements render empty,
per the standard JS conversions; only the string case is reached by the
diagnostics this development states theorems about. -/
def jsToString : JSValue → String
  | JSValue.null => "null"
  | JSValue.undef => "undefined"
  | JSValue.str s => s
  | JSValue.obj _ _ => "[object Object]"
  | JSValue.other _ r => r
  | JSValue.arr items =>
      String.intercalate (",") (items.attach.map (fun x =>
        match x.1 with
        | JSValue.null => ""
        | JSValue.undef => ""
        | JSValue.str s => s
        | JSValue.obj _ _ => "[object Object]"
        | JSValue.other _ r => r
        | JSValue.arr _ => "..."))

/-- The six recognized mode literals, in source order. -/
def validModes : List String :=
  ["and", "or", "startWith", "endWith", "exact", "regex"]

/-- devWarn message: permissions never configured. -/
def notConfiguredMsg : String :=
  "Permissions are not available. Make sure to configure them using configurePermissionDirective()."

/-- devWarn message: nullish binding value. -/
def nullValueMsg : String :=
  "Permission value is null or undefined"

/-- devWarn message: array with invalid items. -/
def invalidArrayItemsMsg : String :=
  "Array contains invalid permission items. Expected string or object with permissions and mode properties"

/-- devWarn message: object missing `permissions`/`mode`. -/
def missingPropsMsg : String :=
  "Object must have both \"permissions\" and \"mode\" properties"

/-- devWarn message: object `permissions` property not an array. -/
def permsNotArrayMsg : String :=
  "Object permissions property must be an array"

/-- devWarn message: unrecognized mode at validation time. -/
def invalidModeMsg (m : JSValue) : String :=
  "Invalid mode \"" ++ jsToString m ++ "\". Valid modes: " ++
    String.intercalate (", ") validModes

/-- devWarn message: value of an unsupported type. -/
def notSupportedTypeMsg : String :=
  "Permission value must be a string, array, or object"

/-- devWarn message: group permissions not an array at evaluation time. -/
def permsMustBeArrayMsg : String :=
  "Permissions must be an array"

/-- devWarn message: group permissions array has a non-string element. -/
def allStringsMsg : String :=
  "All permissions in array must be strings"

/-- devWarn message: unrecognized mode at evaluation time. -/
def unknownModeMsg (m : JSValue) : String :=
  "Unknown mode: " ++ jsToString m

/-- devWarn message: list item neither string nor permissions/mode object. -/
def invalidItemTypeMsg : String :=
  "Invalid array item type. Expected string or object with permissions and mode"

/-- devWarn message: regex construction failure for a pattern. -/
def invalidRegexMsg (pattern e : String) : String :=
  "Invalid regex pattern: \"" ++ pattern ++ "\". Error: " ++ e

/-- devWarn message: an exception escaped `evaluatePermission`. -/
def evalErrorMsg (e : String) : String :=
  "Error evaluating permissions: " ++ e

/-- devWarn message: unsupported value reaching `evaluatePermission`. -/
def unsupportedFormatMsg : String :=
  "Unsupported permission value format"

/-- One step of `validatePermissionFormat`'s array check, the predicate of
`permissionValue.some(...)` on a single item:

`typeof item !== "string" && (typeof item !== "object" || !item.permissions || !item.mode)`

`true` means the item is invalid. A `null` item passes
`typeof item === "object"` and then throws on `item.permissions`. -/
def invalidArrayItem : JSValue → JSResult Bool
  | JSValue.str _ => JSResult.ok false []
  | JSValue.null => JSResult.thrown nullAccessMsg []
  | JSValue.obj p m =>
      JSResult.ok (!(truthy (field p)) || !(truthy (field m))) []
  | JSValue.arr _ => JSResult.ok true []
  | JSValue.undef => JSResult.ok true []
  | JSValue.other _ _ => JSResult.ok true []

/-- `Array.prototype.some` over `invalidArrayItem`: left to right, stops at
the first `true` or the first throw. -/
def someInvalidItem : List JSValue → JSResult Bool
  | [] => JSResult.ok false []
  | x :: xs =>
      match invalidArrayItem x with
      | JSResult.thrown m d => JSResult.thrown m d
      | JSResult.ok true d => JSResult.ok true d
      | JSResult.ok false _ => someInvalidItem xs

/-- `validatePermissionFormat` from the `mounted` hook: structural check of
the binding value, returning `true` (valid) or `false` (invalid, with a
diagnostic). An array containing `null` makes the `some` predicate throw. -/
def validatePermissionFormat : JSValue → JSResult Bool
  | JSValue.null => JSResult.ok false [nullValueMsg]
  | JSValue.undef => JSResult.ok false [nullValueMsg]
  | JSValue.str _ => JSResult.ok true []
  | JSValue.arr items =>
      match someInvalidItem items with
      | JSResult.thrown m d => JSResult.thrown m d
      | JSResult.ok true _ => JSResult.ok false [invalidArrayItemsMsg]
      | JSResult.ok false _ => JSResult.ok true []
  | JSValue.obj p m =>
      if !(truthy (field p)) || !(truthy (field m)) then
        JSResult.ok false [missingPropsMsg]
      else
        match field p with
        | JSValue.arr _ =>
            match field m with
            | JSValue.str s =>
                if validModes.contains s then JSResult.ok true []
                else JSResult.ok false [invalidModeMsg (JSValue.str s)]
            | v => JSResult.ok false [invalidModeMsg v]
        | _ => JSResult.ok false [permsNotArrayMsg]
  | JSValue.other _ _ => JSResult.ok false [notSupportedTypeMsg]

/-- The held-permissions snapshot read by `getCurrentPermissions` at check
time: `some held` when the snapshot is an array of strings, `none` when it
is not an array (every check then fails closed). -/
abbrev Snapshot : Type := Option (List String)

/-- `checkPermission`: `Array.isArray(currentPermissions) &&
currentPermissions.includes(permission)`. -/
def checkPermission (current : Snapshot) (permission : String) : Bool :=
  match current with
  | none => false
  | some held => held.contains permission

/-- Model of `String.prototype.startsWith(pattern)`: the pattern's
characters are an initial segment of the string's characters. -/
def jsStartsWith (s pattern : String) : Bool :=
  pattern.data.isPrefixOf s.data

/-- Model of `String.prototype.endsWith(pattern)`: the pattern's characters
are a final segment of the string's characters. -/
def jsEndsWith (s pattern : String) : Bool :=
  pattern.data.isSuffixOf s.data

/-- `checkStartsWith`: some requested pattern starts some held permission. -/
def checkStartsWith (current : Snapshot) (permissionsToCheck : List String) : Bool :=
  match current with
  | none => false
  | some held =>
      permissionsToCheck.any (fun perm =>
        held.any (fun userPerm => jsStartsWith userPerm perm))

/-- `checkEndsWith`: some requested pattern ends some held permission. -/
def checkEndsWith (current : Snapshot) (permissionsToCheck : List String) : Bool :=
  match current with
  | none => false
  | some held =>
      permissionsToCheck.any (fun perm =>
        held.any (fun userPerm => jsEndsWith userPerm perm))

/-- `checkExactMatch`: some requested permission is a held member. -/
def checkExactMatch (current : Snapshot) (permissionsToCheck : List String) : Bool :=
  match current with
  | none => false
  | some held =>
      permissionsToCheck.any (fun perm => held.contains perm)

/-- Model of the JS `RegExp` facility used by `checkRegexMatch`:
`compile pattern` is `Except.ok test` when `new RegExp(pattern)` succeeds,
where `test perm` models `regex.test(perm)` (unanchored substring search),
and `Except.error message` when construction throws a `SyntaxError` with
that message. -/
abbrev RegexEngine : Type := String → Except String (String → Bool)

/-- The `some` loop of `checkRegexMatch`: each pattern is compiled inside a
`try`; a construction failure is caught, warned about, and contributes
`false`, after which the remaining patterns still run. -/
def regexLoop (eng : RegexEngine) (held : List String) : List String → Bool × List String
  | [] => (false, [])
  | p :: ps =>
      match eng p with
      | Except.ok test =>
          if held.any test then (true, [])
          else regexLoop eng held ps
      | Except.error e =>
          let r := regexLoop eng held ps
          (r.1, invalidRegexMsg p e :: r.2)

/-- `checkRegexMatch`: fails closed on a non-array snapshot, otherwise runs
the pattern loop. Returns the boolean and the diagnostics emitted. -/
def checkRegexMatch (eng : RegexEngine) (current : Snapshot)
    (permissionsToCheck : List String) : Bool × List String :=
  match current with
  | none => (false, [])
  | some held => regexLoop eng held permissionsToCheck

/-- The object branch of `evaluatePermission`, reached for a value (or list
item) that is a non-array object with truthy `permissions` and `mode`:
re-validates that `permissions` is an array of strings, then dispatches on
`mode` (`switch` compares with `===`, so only the exact string literals
match; anything else falls to the defensive default). -/
def evalGroup (eng : RegexEngine) (current : Snapshot)
    (permsToCheck mode : JSValue) : JSResult Bool :=
  match permsToCheck with
  | JSValue.arr items =>
      if items.any (fun item => !(isString item)) then
        JSResult.ok false [allStringsMsg]
      else
        match mode with
        | JSValue.str ("startWith") =>
            JSResult.ok (checkStartsWith current (items.filterMap asString)) []
        | JSValue.str ("endWith") =>
            JSResult.ok (checkEndsWith current (items.filterMap asString)) []
        | JSValue.str ("exact") =>
            JSResult.ok (checkExactMatch current (items.filterMap asString)) []
        | JSValue.str ("regex") =>
            JSResult.ok (checkRegexMatch eng current (items.filterMap asString)).1
              (checkRegexMatch eng current (items.filterMap asString)).2
        | JSValue.str ("and") =>
            JSResult.ok
              ((items.filterMap asString).all (fun p => checkPermission current p)) []
        | JSValue.str ("or") =>
            JSResult.ok
              ((items.filterMap asString).any (fun p => checkPermission current p)) []
        | m => JSResult.ok false [unknownModeMsg m]
  | _ => JSResult.ok false [permsMustBeArrayMsg]

/-- One item of the list branch of `evaluatePermission`: a string item is a
membership check; an object item with truthy `permissions` and `mode`
recurses into `evaluatePermission`, which for such an object is exactly the
`evalGroup` branch; a `null` item passes `typeof item === "object"` and
throws on `item.permissions`; anything else warns and contributes `false`. -/
def evalArrayItem (eng : RegexEngine) (current : Snapshot) : JSValue → JSResult Bool
  | JSValue.str s => JSResult.ok (checkPermission current s) []
  | JSValue.obj p m =>
      if truthy (field p) && truthy (field m) then
        evalGroup eng current (field p) (field m)
      else JSResult.ok false [invalidItemTypeMsg]
  | JSValue.null => JSResult.thrown nullAccessMsg []
  | JSValue.arr _ => JSResult.ok false [invalidItemTypeMsg]
  | JSValue.undef => JSResult.ok false [invalidItemTypeMsg]
  | JSValue.other _ _ => JSResult.ok false [invalidItemTypeMsg]

/-- `Promise.all(...).some(Boolean)` over the item results: every item runs
(its diagnostics are emitted in item order even past a throwing item, since
each `async` map callback runs its synchronous body); if any item threw, the
combined promise rejects with the first thrown message, else the booleans
are OR-ed. -/
def promiseAllOr (rs : List (JSResult Bool)) : JSResult Bool :=
  match rs.findSome? JSResult.thrownMsg with
  | some m => JSResult.thrown m (rs.foldr (fun r acc => r.getDiags ++ acc) [])
  | none =>
      JSResult.ok (rs.any JSResult.getBool)
        (rs.foldr (fun r acc => r.getDiags ++ acc) [])

/-- `evaluatePermission` from the `mounted` hook. Dispatch order as in the
source: non-array object with truthy `permissions`/`mode` (a bare `null`
enters this branch via `typeof null === "object"` and throws), then array,
then string, then the unsupported-format fallback. -/
def evaluatePermission (eng : RegexEngine) (current : Snapshot) : JSValue → JSResult Bool
  | JSValue.null => JSResult.thrown nullAccessMsg []
  | JSValue.obj p m =>
      if truthy (field p) && truthy (field m) then
        evalGroup eng current (field p) (field m)
      else JSResult.ok false [unsupportedFormatMsg]
  | JSValue.arr items =>
      promiseAllOr (items.map (fun item => evalArrayItem eng current item))
  | JSValue.str s => JSResult.ok (checkPermission current s) []
  | JSValue.undef => JSResult.ok false [unsupportedFormatMsg]
  | JSValue.other _ _ => JSResult.ok false [unsupportedFormatMsg]

/-- Outcome of the `mounted` hook on an element that has a parent node:
whether the element was removed from its parent, the diagnostics emitted,
and the exception escaping the (un-awaited) async hook, if any. -/
structure MountResult : Type where
  removed : Bool
  diags : List String
  rejected : Option String
deriving Repr, DecidableEq

/-- The global configuration at mount time: `none` models an unconfigured
(`null`) permissions reference; `some current` models a configured source
whose snapshot (after ref unwrapping by `getCurrentPermissions`) is
`current`. A configured source is an array or a ref, hence truthy, so
`if (!permissions)` distinguishes exactly the `none` case. -/
abbrev MountConfig : Type := Option Snapshot

/-- `value === "*"`: strict equality with the wildcard string, true exactly
for the string value `"*"`. -/
def wildcardTest : JSValue → Bool
  | JSValue.str s => s == "*"
  | _ => false

/-- The `mounted` hook of the directive: unconfigured-permissions early
return (element kept), wildcard early return (element kept), validation
(invalid: element removed; thrown: rejection escapes, element kept),
evaluation inside `try` (false or caught error: element removed). -/
def mounted (eng : RegexEngine) (cfg : MountConfig) (value : JSValue) : MountResult :=
  match cfg with
  | none => { removed := false, diags := [notConfiguredMsg], rejected := none }
  | some current =>
      if wildcardTest value then
        { removed := false, diags := [], rejected := none }
      else
        match validatePermissionFormat value with
        | JSResult.thrown m d => { removed := false, diags := d, rejected := some m }
        | JSResult.ok false d => { removed := true, diags := d, rejected := none }
        | JSResult.ok true d =>
            match evaluatePermission eng current value with
            | JSResult.ok b d2 =>
                { removed := !b, diags := d ++ d2, rejected := none }
            | JSResult.thrown m d2 =>
                { removed := true, diags := d ++ d2 ++ [evalErrorMsg m], rejected := none }

/-- The requirement object `{ permissions: perms, mode: mode }`. -/
def groupExpr (perms : List String) (mode : String) : JSValue :=
  JSValue.obj (some (JSValue.arr (perms.map JSValue.str))) (some (JSValue.str mode))

/-- A concrete regex engine for witnesses: `"("` fails to compile (as in
JS), any other pattern tests string equality with itself. -/
def eng0 : RegexEngine := fun p =>
  if p = "(" then Except.error ("Invalid regular expression")
  else Except.ok (fun s => s == p)

/-- What one pattern of the `regex` mode contributes: `false` when the
pattern does not compile, otherwise whether it matches some held
permission. -/
def regexHit (eng : RegexEngine) (held : List String) (p : String) : Bool :=
  match eng p with
  | Except.ok test => held.any test
  | Except.error _ => false

/-! ## Helper lemmas -/

theorem any_map_str_not_isString (perms : List String) :
    ((perms.map JSValue.str).any (fun item => !(isString item))) = false := by
  induction perms with
  | nil => rfl
  | cons p ps _ => simp [isString]

theorem filterMap_asString_map_str (perms : List String) :
    (perms.map JSValue.str).filterMap asString = perms := by
  induction perms with
  | nil => rfl
  | cons p ps ih => simpa [asString] using ih

theorem filterMap_comp_asString_str (perms : List String) :
    List.filterMap (asString ∘ JSValue.str) perms = perms := by
  induction perms with
  | nil => rfl
  | cons p ps ih => simpa [asString] using ih

theorem evaluatePermission_groupExpr (eng : RegexEngine) (cur : Snapshot)
    (perms : List String) (m : String) (hm : m ≠ "") :
    evaluatePermission eng cur (groupExpr perms m) =
      evalGroup eng cur (JSValue.arr (perms.map JSValue.str)) (JSValue.str m) := by
  simp [evaluatePermission, groupExpr, field, truthy, hm]


theorem evalGroup_and (eng : RegexEngine) (cur : Snapshot) (perms : List String) :
    evalGroup eng cur (JSValue.arr (perms.map JSValue.str)) (JSValue.str ("and")) =
      JSResult.ok (perms.all (fun p => checkPermission cur p)) [] := by
  simp [evalGroup, any_map_str_not_isString, filterMap_asString_map_str, filterMap_comp_asString_str, asString]

theorem evalGroup_or (eng : RegexEngine) (cur : Snapshot) (perms : List String) :
    evalGroup eng cur (JSValue.arr (perms.map JSValue.str)) (JSValue.str ("or")) =
      JSResult.ok (perms.any (fun p => checkPermission cur p)) [] := by
  simp [evalGroup, any_map_str_not_isString, filterMap_asString_map_str, filterMap_comp_asString_str, asString]

theorem evalGroup_exact (eng : RegexEngine) (cur : Snapshot) (perms : List String) :
    evalGroup eng cur (JSValue.arr (perms.map JSValue.str)) (JSValue.str ("exact")) =
      JSResult.ok (checkExactMatch cur perms) [] := by
  simp [evalGroup, any_map_str_not_isString, filterMap_asString_map_str, filterMap_comp_asString_str, asString]

theorem evalGroup_startWith (eng : RegexEngine) (cur : Snapshot) (perms : List String) :
    evalGroup eng cur (JSValue.arr (perms.map JSValue.str)) (JSValue.str ("startWith")) =
      JSResult.ok (checkStartsWith cur perms) [] := by
  simp [evalGroup, any_map_str_not_isString, filterMap_asString_map_str, filterMap_comp_asString_str, asString]

theorem evalGroup_endWith (eng : RegexEngine) (cur : Snapshot) (perms : List String) :
    evalGroup eng cur (JSValue.arr (perms.map JSValue.str)) (JSValue.str ("endWith")) =
      JSResult.ok (checkEndsWith cur perms) [] := by
  simp [evalGroup, any_map_str_not_isString, filterMap_asString_map_str, filterMap_comp_asString_str, asString]

theorem evalGroup_regex (eng : RegexEngine) (cur : Snapshot) (perms : List String) :
    evalGroup eng cur (JSValue.arr (perms.map JSValue.str)) (JSValue.str ("regex")) =
      JSResult.ok (checkRegexMatch eng cur perms).1 (checkRegexMatch eng cur perms).2 := by
  simp [evalGroup, any_map_str_not_isString, filterMap_asString_map_str, filterMap_comp_asString_str, asString]

/-! ## Claim theorems -/

/-- C1 (counterexample): with no permissions source configured and the
requirement `"x"`, the `mounted` hook emits the not-configured diagnostic
but leaves the element attached (`removed = false`), contradicting the
claim that the guarded element is detached exactly as for a denied
requirement. -/
theorem c1_unconfigured_keeps_element :
    (mounted eng0 none (JSValue.str "x")).removed = false ∧
      (mounted eng0 none (JSValue.str "x")).diags = [notConfiguredMsg] :=
  ⟨rfl, rfl⟩

/-- C1 (amended): for every requirement expression, if no held-permissions
source is configured, the `mounted` hook emits the not-configured
diagnostic and returns early, leaving the guarded element attached
(fail open), with no exception. -/
theorem c1_unconfigured_fail_open (eng : RegexEngine) (v : JSValue) :
    mounted eng none v =
      { removed := false, diags := [notConfiguredMsg], rejected := none } :=
  rfl

/-- C2 (code bug): on the array requirement `[null]`, the validator's
array-item predicate evaluates `item.permissions` on `null` (which passed
`typeof item === "object"`) and throws a `TypeError`; the call to the
validator sits outside the hook's `try`, so the exception escapes the
async `mounted` hook as a rejection and the element is never removed —
the validator does not return an Invalid result. -/
theorem c2_validator_throws_on_null_item :
    validatePermissionFormat (JSValue.arr [JSValue.null]) =
        JSResult.thrown nullAccessMsg [] ∧
      (mounted eng0 (some (some ["a"])) (JSValue.arr [JSValue.null])).rejected =
        some nullAccessMsg ∧
      (mounted eng0 (some (some ["a"])) (JSValue.arr [JSValue.null])).removed = false :=
  ⟨rfl, rfl, rfl⟩

/-- C3 (counterexample): with no permissions source configured and the
wildcard requirement `"*"`, the hook emits the not-configured diagnostic:
the wildcard check did not short-circuit before the permissions-configured
precondition (that precondition runs first, at the top of the hook). -/
theorem c3_unconfigured_wildcard_warns :
    (mounted eng0 none (JSValue.str "*")).diags = [notConfiguredMsg] ∧
      (mounted eng0 none (JSValue.str "*")).removed = false :=
  ⟨rfl, rfl⟩

/-- C3 (amended): the wildcard `"*"` is treated as satisfied before
validation and evaluation — with any configured source the hook returns
with no diagnostics and the element attached — and although the
permissions-configured precondition runs before the wildcard check, the
unconfigured branch also returns without detaching, so the guarded element
is left attached under every configuration. -/
theorem c3_wildcard_always_attached (eng : RegexEngine) :
    (∀ cfg : MountConfig, (mounted eng cfg (JSValue.str "*")).removed = false) ∧
      (∀ cur : Snapshot,
        mounted eng (some cur) (JSValue.str "*") =
          { removed := false, diags := [], rejected := none }) := by
  refine ⟨fun cfg => ?_, fun cur => rfl⟩
  cases cfg <;> rfl

/-- C4: evaluating `{ permissions: perms, mode: "and" }` against a held
array yields `true` (with no diagnostics) iff every string in `perms` is an
exact member of the held permissions. -/
theorem c4_group_and (eng : RegexEngine) (perms held : List String) :
    evaluatePermission eng (some held) (groupExpr perms ("and")) =
        JSResult.ok true [] ↔
      ∀ p ∈ perms, p ∈ held := by
  rw [evaluatePermission_groupExpr eng (some held) perms ("and") (by decide),
    evalGroup_and]
  simp [checkPermission]

/-- C5: evaluating `{ permissions: perms, mode: "or" }` and
`{ permissions: perms, mode: "exact" }` produce the same result, namely
`true` iff at least one string in `perms` is an exact member of the held
permissions. -/
theorem c5_or_exact_same (eng : RegexEngine) (perms held : List String) :
    evaluatePermission eng (some held) (groupExpr perms ("or")) =
        evaluatePermission eng (some held) (groupExpr perms ("exact")) ∧
      (evaluatePermission eng (some held) (groupExpr perms ("or")) =
          JSResult.ok true [] ↔
        ∃ p ∈ perms, p ∈ held) := by
  rw [evaluatePermission_groupExpr eng (some held) perms ("or") (by decide),
    evaluatePermission_groupExpr eng (some held) perms ("exact") (by decide),
    evalGroup_or, evalGroup_exact]
  constructor
  · simp [checkPermission, checkExactMatch]
  · simp [checkPermission]

/-- C6: evaluating `{ permissions: perms, mode: "startWith" }` against a
held array yields `true` iff some held permission starts with some string
in `perms`. -/
theorem c6_group_startWith (eng : RegexEngine) (perms held : List String) :
    evaluatePermission eng (some held) (groupExpr perms ("startWith")) =
        JSResult.ok true [] ↔
      ∃ p ∈ perms, ∃ u ∈ held, p.data <+: u.data := by
  rw [evaluatePermission_groupExpr eng (some held) perms ("startWith") (by decide),
    evalGroup_startWith]
  simp [checkStartsWith, jsStartsWith, List.isPrefixOf_iff_prefix]

/-- C7: evaluating `{ permissions: ps, mode: "regex" }` yields `true` iff
some pattern compiles and its test matches some held permission, and a
pattern whose compilation fails contributes `false` together with the
invalid-regex diagnostic while the remaining patterns still run (no
exception: the function is total). -/
theorem c7_regex_mode (eng : RegexEngine) (held : List String) :
    (∀ ps : List String,
        evaluatePermission eng (some held) (groupExpr ps ("regex")) =
          JSResult.ok (ps.any (regexHit eng held))
            (checkRegexMatch eng (some held) ps).2) ∧
      (∀ p e ps, eng p = Except.error e →
        checkRegexMatch eng (some held) (p :: ps) =
          ((checkRegexMatch eng (some held) ps).1,
            invalidRegexMsg p e :: (checkRegexMatch eng (some held) ps).2)) := by
  have loopFst : ∀ ps : List String,
      (checkRegexMatch eng (some held) ps).1 = ps.any (regexHit eng held) := by
    intro ps
    have loop : ∀ qs : List String,
        (regexLoop eng held qs).1 = qs.any (regexHit eng held) := by
      intro qs
      induction qs with
      | nil => rfl
      | cons p ps ih =>
          cases h : eng p with
          | ok test =>
              cases hm : held.any test with
              | true => simp [regexLoop, regexHit, h, hm]
              | false => simp [regexLoop, regexHit, h, hm, ih]
          | error e => simp [regexLoop, regexHit, h, ih]
    simpa [checkRegexMatch] using loop ps
  constructor
  · intro ps
    rw [evaluatePermission_groupExpr eng (some held) ps ("regex") (by decide),
      evalGroup_regex, loopFst]
  · intro p e ps h
    simp [checkRegexMatch, regexLoop, h]

/-- C7 (witness): with the concrete engine `eng0`, held set `["a"]` and
patterns `["(", "a"]`, the failing pattern `"("` contributes its diagnostic
and the remaining pattern still matches, so the result is
`(true, [diagnostic])`. -/
theorem c7_regex_mode_witness :
    checkRegexMatch eng0 (some ["a"]) ["(", "a"] =
      (true, [invalidRegexMsg ("(") ("Invalid regular expression")]) := by
  rw [(c7_regex_mode eng0 ["a"]).2 "(" ("Invalid regular expression") ["a"] rfl]
  rfl

/-- C4 (witness): `{ permissions: ["a","b"], mode: "and" }` is satisfied by
the held set `["a","b"]`. -/
theorem c4_group_and_witness :
    evaluatePermission eng0 (some ["a", "b"]) (groupExpr ["a", "b"] ("and")) =
      JSResult.ok true [] :=
  (c4_group_and eng0 ["a", "b"] ["a", "b"]).mpr (by decide)

/-- C5 (witness): on held set `["b"]` and permissions `["a","b"]`, the
`or` and `exact` modes agree and are satisfied. -/
theorem c5_or_exact_same_witness :
    evaluatePermission eng0 (some ["b"]) (groupExpr ["a", "b"] ("or")) =
        evaluatePermission eng0 (some ["b"]) (groupExpr ["a", "b"] ("exact")) ∧
      evaluatePermission eng0 (some ["b"]) (groupExpr ["a", "b"] ("or")) =
        JSResult.ok true [] :=
  ⟨(c5_or_exact_same eng0 ["a", "b"] ["b"]).1,
    (c5_or_exact_same eng0 ["a", "b"] ["b"]).2.mpr (by decide)⟩

/-- C6 (witness): the held permission `"admin.users"` starts with the
requested `"adm"`. -/
theorem c6_group_startWith_witness :
    evaluatePermission eng0 (some ["admin.users"]) (groupExpr ["adm"] ("startWith")) =
      JSResult.ok true [] :=
  (c6_group_startWith eng0 ["adm"] ["admin.users"]).mpr (by decide)

/-- `evalGroup` always returns an `ok` result: every branch of the group
evaluation ends in a diagnostic-and-`false` or a check result, never in a
throw. -/
theorem evalGroup_thrownMsg_none (eng : RegexEngine) (cur : Snapshot)
    (pv m : JSValue) : (evalGroup eng cur pv m).thrownMsg = none := by
  cases pv with
  | arr items =>
      simp only [evalGroup]
      split
      · rfl
      · split <;> rfl
  | null => rfl
  | undef => rfl
  | str s => rfl
  | obj p q => rfl
  | other b r => rfl

/-- A list item other than `null` never makes the item callback throw. -/
theorem evalArrayItem_thrownMsg_none (eng : RegexEngine) (cur : Snapshot)
    (it : JSValue) (h : it ≠ JSValue.null) :
    (evalArrayItem eng cur it).thrownMsg = none := by
  cases it with
  | null => exact absurd rfl h
  | str s => rfl
  | obj p m =>
      simp only [evalArrayItem]
      split
      · exact evalGroup_thrownMsg_none eng cur (field p) (field m)
      · rfl
  | arr its => rfl
  | undef => rfl
  | other b r => rfl

/-- Over a `null`-free item list, no item result is a throw, so the
combined `Promise.all` does not reject. -/
theorem findSome?_evalArrayItem_none (eng : RegexEngine) (cur : Snapshot)
    (items : List JSValue) (h : ∀ it ∈ items, it ≠ JSValue.null) :
    ((items.map (fun it => evalArrayItem eng cur it)).findSome?
      JSResult.thrownMsg) = none := by
  induction items with
  | nil => rfl
  | cons a as ih =>
      rw [List.map_cons, List.findSome?_cons,
        evalArrayItem_thrownMsg_none eng cur a (h a (List.mem_cons_self a as))]
      exact ih (fun it hit => h it (List.mem_cons_of_mem a hit))

/-- `some(Boolean)` over mapped item results, restated over the items. -/
theorem any_getBool_map (f : JSValue → JSResult Bool) (items : List JSValue) :
    (items.map f).any JSResult.getBool = items.any (fun it => (f it).getBool) := by
  induction items with
  | nil => rfl
  | cons a as ih => simp [ih]

/-- Concatenated diagnostics of mapped item results, over the items. -/
theorem foldr_getDiags_map (f : JSValue → JSResult Bool) (items : List JSValue) :
    (items.map f).foldr (fun r acc => r.getDiags ++ acc) [] =
      items.foldr (fun it acc => (f it).getDiags ++ acc) [] := by
  induction items with
  | nil => rfl
  | cons a as ih => simp [ih]

/-- C8 (counterexample): on the list requirement `[null, "x"]` with held
set `["x"]`, the claim says the `null` item (an "other item shape")
contributes `false` with a diagnostic and the items OR-combine, so the
result would be `true` (since `"x"` is held); instead the item callback
evaluates `item.permissions` on `null` (which passed
`typeof item === "object"`) and throws, rejecting the whole `Promise.all`:
the evaluation produces no boolean at all. -/
theorem c8_null_item_throws :
    evaluatePermission eng0 (some ["x"])
        (JSValue.arr [JSValue.null, JSValue.str "x"]) =
      JSResult.thrown nullAccessMsg [] :=
  rfl

/-- C8 (amended): for every list-shaped requirement none of whose items is
`null`, evaluation combines the items with OR over the item results, whose
diagnostics are concatenated in item order; a string item is satisfied iff
it is an exact member of the held set; an object item with truthy
`permissions` and `mode` keys is evaluated recursively (as the object
branch of `evaluatePermission`, i.e. as a `Group`); an item that is a
nested array, `undefined`, or another primitive contributes `false` with
the invalid-item diagnostic; and in particular
`evaluate(["x", { permissions: ["y","z"], mode: "and" }], held)` equals
`held.includes("x") || (held.includes("y") && held.includes("z"))`.
(A `null` item instead throws and rejects the whole evaluation, see the
counterexample.) -/
theorem c8_list_or_null_free (eng : RegexEngine) (held : List String)
    (items : List JSValue) (h : ∀ it ∈ items, it ≠ JSValue.null) :
    evaluatePermission eng (some held) (JSValue.arr items) =
      JSResult.ok
        (items.any (fun it => (evalArrayItem eng (some held) it).getBool))
        (items.foldr
          (fun it acc => (evalArrayItem eng (some held) it).getDiags ++ acc) []) ∧
    (∀ s, evalArrayItem eng (some held) (JSValue.str s) =
      JSResult.ok (checkPermission (some held) s) []) ∧
    (∀ p m, evalArrayItem eng (some held) (JSValue.obj p m) =
      if truthy (field p) && truthy (field m) then
        evaluatePermission eng (some held) (JSValue.obj p m)
      else JSResult.ok false [invalidItemTypeMsg]) ∧
    (∀ its, evalArrayItem eng (some held) (JSValue.arr its) =
      JSResult.ok false [invalidItemTypeMsg]) ∧
    (evalArrayItem eng (some held) JSValue.undef =
      JSResult.ok false [invalidItemTypeMsg]) ∧
    (∀ b r, evalArrayItem eng (some held) (JSValue.other b r) =
      JSResult.ok false [invalidItemTypeMsg]) ∧
    (∀ x y z : String,
      evaluatePermission eng (some held)
          (JSValue.arr [JSValue.str x, groupExpr [y, z] ("and")]) =
        JSResult.ok (held.contains x || (held.contains y && held.contains z)) []) := by
  refine ⟨?_, fun s => rfl, ?_, fun its => rfl, rfl, fun b r => rfl, ?_⟩
  · simp only [evaluatePermission, promiseAllOr,
      findSome?_evalArrayItem_none eng (some held) items h]
    rw [any_getBool_map, foldr_getDiags_map]
  · intro p m
    by_cases hc : (truthy (field p) && truthy (field m)) = true
    · simp [evalArrayItem, evaluatePermission, hc]
    · simp [evalArrayItem, evaluatePermission, hc]
  · intro x y z
    simp [evaluatePermission, promiseAllOr, evalArrayItem, groupExpr, field, truthy,
      JSResult.thrownMsg, JSResult.getDiags, JSResult.getBool, evalGroup, isString,
      asString, checkPermission, List.findSome?]

/-- C8 (witness): applying the amended theorem to the concrete list
`["x", 5]` (a string item and a number item) with held set `["x"]`: the
number item contributes `false` with the invalid-item diagnostic, the
string item is a held member, and the OR makes the result `true`. -/
theorem c8_list_or_null_free_witness :
    evaluatePermission eng0 (some ["x"])
        (JSValue.arr [JSValue.str "x", JSValue.other true "5"]) =
      JSResult.ok true [invalidItemTypeMsg] := by
  rw [(c8_list_or_null_free eng0 ["x"]
    [JSValue.str "x", JSValue.other true "5"] (by simp)).1]
  rfl

/-- C9: the validator rejects a nullish value (`null` or `undefined`) with
the nullish diagnostic, rejects `{ permissions: ["a"], mode: "bogus" }`
with the unknown-mode diagnostic, and accepts every bare string. -/
theorem c9_validator_cases (s : String) :
    validatePermissionFormat JSValue.null = JSResult.ok false [nullValueMsg] ∧
      validatePermissionFormat JSValue.undef = JSResult.ok false [nullValueMsg] ∧
      validatePermissionFormat (groupExpr ["a"] ("bogus")) =
        JSResult.ok false [invalidModeMsg (JSValue.str ("bogus"))] ∧
      validatePermissionFormat (JSValue.str s) = JSResult.ok true [] :=
  ⟨rfl, rfl, rfl, rfl⟩

/-- C10: a group with an empty `permissions` array evaluates to `true`
under mode `"and"` (every-over-empty) and to `false` under each of `"or"`,
`"exact"`, `"startWith"`, `"endWith"` and `"regex"` (some-over-empty),
whatever the held set. -/
theorem c10_empty_group (eng : RegexEngine) (held : List String) :
    evaluatePermission eng (some held) (groupExpr [] ("and")) = JSResult.ok true [] ∧
      evaluatePermission eng (some held) (groupExpr [] ("or")) = JSResult.ok false [] ∧
      evaluatePermission eng (some held) (groupExpr [] ("exact")) = JSResult.ok false [] ∧
      evaluatePermission eng (some held) (groupExpr [] ("startWith")) = JSResult.ok false [] ∧
      evaluatePermission eng (some held) (groupExpr [] ("endWith")) = JSResult.ok false [] ∧
      evaluatePermission eng (some held) (groupExpr [] ("regex")) = JSResult.ok false [] :=
  ⟨rfl, rfl, rfl, rfl, rfl, rfl⟩

end VPerm
